import Mathlib

/-!
Shallow embedding of the astral-power-monitoring repository (src/main.rs,
src/monitor.rs) and proofs about its specification claims.

The program enumerates NVIDIA GPU handles through NVAPI, reads a 24-byte
telemetry frame from the IT8915 power-monitoring IC over I2C, decodes it
into six (voltage, current) pairs and renders them in a loop.

Modelling conventions:
- Machine integers are `Nat`/`Int` (u8/u16 byte values are `Nat` with
  range hypotheses where needed; `i32` GPU indices are `Int`; the
  `as usize` and `as i32` casts are modelled with explicit wrap-around).
- The Rust `f32` arithmetic `(raw as u16 as f32) * 0.001f32` is modelled
  exactly over `ℚ`: the f32 literal `0.001` is the IEEE-754 binary32
  value 8589935 / 2^33, a `u16` converts to f32 exactly (u16 < 2^24), and
  the product is rounded to 24 significant bits with round-to-nearest,
  ties-to-even, which is IEEE multiplication for these operands (all
  results lie in the normal range, so no subnormal or overflow cases
  arise for inputs below 2^16).
- The NVAPI driver is an oracle parameter: enumeration outcomes are an
  `EnumResult`, each I2C transaction outcome is given by an `I2COracle`.
- Fallible Rust code returns `Except String`; a Rust panic (out-of-bounds
  slice indexing) is modelled as `Option.none` at the call boundary.
-/

/-- Fuel-driven helper for the bit length of a natural number. -/
def bitLenAux : ℕ → ℕ → ℕ
  | 0, _ => 0
  | f + 1, n => if n = 0 then 0 else bitLenAux f (n / 2) + 1

/-- Bit length of `n` (0 for 0); `n` itself is always enough fuel. -/
def bitLen (n : ℕ) : ℕ := bitLenAux n n

/-- Round `n / 2 ^ s` to the nearest integer, ties to even. -/
def rnEven (n s : ℕ) : ℕ :=
  let q := n / 2 ^ s
  let r := n % 2 ^ s
  if r * 2 < 2 ^ s then q
  else if r * 2 > 2 ^ s then q + 1
  else if q % 2 = 0 then q else q + 1

/-- Numerator (over the fixed denominator 2^33) of the IEEE-754 binary32
product `(x as f32) * 0.001f32` for a natural `x < 2 ^ 16`: the exact
product is `x * 8589935 / 2 ^ 33`, and its integer numerator is rounded
to 24 significant bits, ties to even. -/
def scale_num (x : ℕ) : ℕ :=
  let N := x * 8589935
  let k := bitLen N
  if k ≤ 24 then N
  else rnEven N (k - 24) * 2 ^ (k - 24)

/-- Exact rational value of the f32 computation `(x as f32) * 0.001f32`
performed by `get_power_status` on each decoded 16-bit raw value
(millivolts to volts, milliamps to amperes). -/
def scale_milli (x : ℕ) : ℚ := (scale_num x : ℚ) / 2 ^ 33

/-- The closure `read_u16_be` in `get_power_status`: big-endian 16-bit
read at `offset`, `((raw_data[offset] as u16) << 8) | raw_data[offset+1]`. -/
def read_u16_be (raw_data : List ℕ) (offset : ℕ) : ℕ :=
  (raw_data.getD offset 0) <<< 8 ||| raw_data.getD (offset + 1) 0

/-- The `rail_voltages` array of `get_power_status`: hardware rails are
stored in reverse order, pin p reads hardware rail 5 - p. -/
def rail_voltages (raw_data : List ℕ) : List ℕ :=
  [read_u16_be raw_data 20,
   read_u16_be raw_data 16,
   read_u16_be raw_data 12,
   read_u16_be raw_data 8,
   read_u16_be raw_data 4,
   read_u16_be raw_data 0]

/-- The `rail_currents` array of `get_power_status`. -/
def rail_currents (raw_data : List ℕ) : List ℕ :=
  [read_u16_be raw_data 22,
   read_u16_be raw_data 18,
   read_u16_be raw_data 14,
   read_u16_be raw_data 10,
   read_u16_be raw_data 6,
   read_u16_be raw_data 2]

/-- Contents of `voltage_buffer` after the final conversion loop of
`get_power_status`: `voltage_buffer[i] = rail_voltages[i] as f32 * 0.001`. -/
def decodeVoltages (raw_data : List ℕ) : List ℚ :=
  (rail_voltages raw_data).map scale_milli

/-- Contents of `current_buffer` after the final conversion loop of
`get_power_status`. -/
def decodeCurrents (raw_data : List ℕ) : List ℚ :=
  (rail_currents raw_data).map scale_milli

/-- Synthetic frame in which hardware rail r encodes (r+1) volts and
(r+1) amps as big-endian millivolt/milliamp fields: rail r occupies
bytes 4r..4r+3 with value (r+1)*1000 (0x03E8, 0x07D0, 0x0BB8, 0x0FA0,
0x1388, 0x1770). -/
def synthFrame : List ℕ :=
  [0x03, 0xE8, 0x03, 0xE8,
   0x07, 0xD0, 0x07, 0xD0,
   0x0B, 0xB8, 0x0B, 0xB8,
   0x0F, 0xA0, 0x0F, 0xA0,
   0x13, 0x88, 0x13, 0x88,
   0x17, 0x70, 0x17, 0x70]

/-- The raw frame of the spec's end-to-end scenario:
hex 00*16, 09 C4 17 70, 0B B8 0B B8. -/
def frame3 : List ℕ :=
  [0, 0, 0, 0, 0, 0, 0, 0, 0, 0, 0, 0, 0, 0, 0, 0,
   0x09, 0xC4, 0x17, 0x70, 0x0B, 0xB8, 0x0B, 0xB8]

lemma scale_milli_zero : scale_milli 0 = 0 := by
  rw [scale_milli, show scale_num 0 = 0 from by decide]
  norm_num

lemma scale_milli_1000 : scale_milli 1000 = 1 := by
  rw [scale_milli, show scale_num 1000 = 8589934592 from by decide]
  norm_num

lemma scale_milli_2000 : scale_milli 2000 = 2 := by
  rw [scale_milli, show scale_num 2000 = 17179869184 from by decide]
  norm_num

lemma scale_milli_3000 : scale_milli 3000 = 12582913 / 4194304 := by
  rw [scale_milli, show scale_num 3000 = 25769805824 from by decide]
  norm_num

lemma scale_milli_4000 : scale_milli 4000 = 4 := by
  rw [scale_milli, show scale_num 4000 = 34359738368 from by decide]
  norm_num

lemma scale_milli_5000 : scale_milli 5000 = 5 := by
  rw [scale_milli, show scale_num 5000 = 42949672960 from by decide]
  norm_num

lemma scale_milli_6000 : scale_milli 6000 = 12582913 / 2097152 := by
  rw [scale_milli, show scale_num 6000 = 51539611648 from by decide]
  norm_num

lemma scale_milli_2500 : scale_milli 2500 = 5 / 2 := by
  rw [scale_milli, show scale_num 2500 = 21474836480 from by decide]
  norm_num

/-- C1 counterexample input, pin 3 of the synthetic frame: hardware rail
2 encodes 3000 mV / 3000 mA, but the decoded f32 value is
12582913 / 2^22 = 3.000000238…, not exactly 3. -/
theorem c1_counterexample :
    (decodeVoltages synthFrame).getD 3 0 ≠ (3 : ℚ) ∧
    (decodeCurrents synthFrame).getD 3 0 ≠ (3 : ℚ) := by
  have hv : (decodeVoltages synthFrame).getD 3 0 = scale_milli 3000 := rfl
  have hc : (decodeCurrents synthFrame).getD 3 0 = scale_milli 3000 := rfl
  rw [hv, hc, scale_milli_3000]
  norm_num

/-- C1 (amended): the decoder reads pin p's voltage from byte offset
4*(5-p) and its current from 4*(5-p)+2; in the synthetic frame, hardware
rail r's bytes 4r..4r+3 hold the raw value (r+1)*1000 twice, and pin 5-r
reports the f32 rounding of (r+1)*1000 * 0.001f32 for both voltage and
current, which is within 1/2000 of r+1 (so equal to r+1 at the display's
three-decimal precision) but not always exactly r+1. -/
theorem c1_amended :
    (∀ (f : List ℕ) (p : ℕ), p < 6 →
      (rail_voltages f).getD p 0 = read_u16_be f (4 * (5 - p)) ∧
      (rail_currents f).getD p 0 = read_u16_be f (4 * (5 - p) + 2)) ∧
    (∀ r : ℕ, r < 6 →
      read_u16_be synthFrame (4 * r) = (r + 1) * 1000 ∧
      read_u16_be synthFrame (4 * r + 2) = (r + 1) * 1000 ∧
      (decodeVoltages synthFrame).getD (5 - r) 0 = scale_milli ((r + 1) * 1000) ∧
      (decodeCurrents synthFrame).getD (5 - r) 0 = scale_milli ((r + 1) * 1000) ∧
      |scale_milli ((r + 1) * 1000) - (r + 1)| ≤ 1 / 2000) := by
  constructor
  · intro f p hp
    interval_cases p <;> exact ⟨rfl, rfl⟩
  · intro r hr
    interval_cases r
    · refine ⟨by decide, by decide, rfl, rfl, ?_⟩
      rw [show ((0 : ℕ) + 1) * 1000 = 1000 from rfl, scale_milli_1000, abs_le]
      constructor <;> norm_num
    · refine ⟨by decide, by decide, rfl, rfl, ?_⟩
      rw [show ((1 : ℕ) + 1) * 1000 = 2000 from rfl, scale_milli_2000, abs_le]
      constructor <;> norm_num
    · refine ⟨by decide, by decide, rfl, rfl, ?_⟩
      rw [show ((2 : ℕ) + 1) * 1000 = 3000 from rfl, scale_milli_3000, abs_le]
      constructor <;> norm_num
    · refine ⟨by decide, by decide, rfl, rfl, ?_⟩
      rw [show ((3 : ℕ) + 1) * 1000 = 4000 from rfl, scale_milli_4000, abs_le]
      constructor <;> norm_num
    · refine ⟨by decide, by decide, rfl, rfl, ?_⟩
      rw [show ((4 : ℕ) + 1) * 1000 = 5000 from rfl, scale_milli_5000, abs_le]
      constructor <;> norm_num
    · refine ⟨by decide, by decide, rfl, rfl, ?_⟩
      rw [show ((5 : ℕ) + 1) * 1000 = 6000 from rfl, scale_milli_6000, abs_le]
      constructor <;> norm_num

/-- C1 witness: the amended theorem applied at pin 2 and rail 2. -/
theorem c1_witness :
    ((rail_voltages frame3).getD 2 0 = read_u16_be frame3 (4 * (5 - 2)) ∧
      (rail_currents frame3).getD 2 0 = read_u16_be frame3 (4 * (5 - 2) + 2)) ∧
    (read_u16_be synthFrame (4 * 2) = (2 + 1) * 1000 ∧
      read_u16_be synthFrame (4 * 2 + 2) = (2 + 1) * 1000 ∧
      (decodeVoltages synthFrame).getD (5 - 2) 0 = scale_milli ((2 + 1) * 1000) ∧
      (decodeCurrents synthFrame).getD (5 - 2) 0 = scale_milli ((2 + 1) * 1000) ∧
      |scale_milli ((2 + 1) * 1000) - (2 + 1)| ≤ 1 / 2000) :=
  ⟨c1_amended.1 frame3 2 (by norm_num), c1_amended.2 2 (by norm_num)⟩

/-- C3 counterexample: in the spec's end-to-end frame, bytes 20–23 hold
0B B8 0B B8, so pin 0 decodes to roughly 3 V / 3 A, not to the claimed
2.5 V / 6 A. -/
theorem c3_counterexample :
    (decodeVoltages frame3).getD 0 0 ≠ (5 / 2 : ℚ) ∧
    (decodeCurrents frame3).getD 0 0 ≠ (6 : ℚ) := by
  have hv : (decodeVoltages frame3).getD 0 0 = scale_milli 3000 := rfl
  have hc : (decodeCurrents frame3).getD 0 0 = scale_milli 3000 := rfl
  rw [hv, hc, scale_milli_3000]
  norm_num

/-- C3 (amended): each 4-byte block is decoded as big-endian
[voltage_hi, voltage_lo, current_hi, current_lo]; in the given frame,
pin 0 (bytes 20–23) holds raw 0x0BB8 / 0x0BB8 and decodes to within
1/2000 of 3 V and 3 A; the block 09 C4 17 70 sits at bytes 16–19
(hardware rail 4, pin 1), where the voltage decodes to exactly 2.5 V and
the current to within 1/2000 of 6 A; pin 5 (bytes 0–3) decodes to
exactly 0 V, 0 A. -/
theorem c3_amended :
    read_u16_be frame3 20 = 0x0BB8 ∧ read_u16_be frame3 22 = 0x0BB8 ∧
    read_u16_be frame3 16 = 0x09C4 ∧ read_u16_be frame3 18 = 0x1770 ∧
    (decodeVoltages frame3).getD 0 0 = scale_milli 0x0BB8 ∧
    (decodeCurrents frame3).getD 0 0 = scale_milli 0x0BB8 ∧
    |(decodeVoltages frame3).getD 0 0 - 3| ≤ 1 / 2000 ∧
    |(decodeCurrents frame3).getD 0 0 - 3| ≤ 1 / 2000 ∧
    (decodeVoltages frame3).getD 1 0 = 5 / 2 ∧
    (decodeCurrents frame3).getD 1 0 = scale_milli 0x1770 ∧
    |(decodeCurrents frame3).getD 1 0 - 6| ≤ 1 / 2000 ∧
    (decodeVoltages frame3).getD 5 0 = 0 ∧
    (decodeCurrents frame3).getD 5 0 = 0 := by
  have hv0 : (decodeVoltages frame3).getD 0 0 = scale_milli 3000 := rfl
  have hc0 : (decodeCurrents frame3).getD 0 0 = scale_milli 3000 := rfl
  have hv1 : (decodeVoltages frame3).getD 1 0 = scale_milli 2500 := rfl
  have hc1 : (decodeCurrents frame3).getD 1 0 = scale_milli 6000 := rfl
  have hv5 : (decodeVoltages frame3).getD 5 0 = scale_milli 0 := rfl
  have hc5 : (decodeCurrents frame3).getD 5 0 = scale_milli 0 := rfl
  refine ⟨by decide, by decide, by decide, by decide, hv0, hc0, ?_, ?_, ?_, hc1, ?_, ?_, ?_⟩
  · rw [hv0, scale_milli_3000, abs_le]; constructor <;> norm_num
  · rw [hc0, scale_milli_3000, abs_le]; constructor <;> norm_num
  · rw [hv1, scale_milli_2500]
  · rw [hc1, scale_milli_6000, abs_le]; constructor <;> norm_num
  · rw [hv5, scale_milli_zero]
  · rw [hc5, scale_milli_zero]

/-- C4: every decoded buffer entry is the f32 product of the raw 16-bit
value with the literal 0.001; raw 0x2710 = 10000 decodes to exactly 10
and raw 0 decodes to exactly 0. -/
theorem c4_scaling :
    (∀ (raw_data : List ℕ) (i : ℕ),
      (decodeVoltages raw_data).getD i 0 = scale_milli ((rail_voltages raw_data).getD i 0) ∧
      (decodeCurrents raw_data).getD i 0 = scale_milli ((rail_currents raw_data).getD i 0)) ∧
    scale_milli 0x2710 = 10 ∧ scale_milli 0 = 0 := by
  refine ⟨?_, ?_, scale_milli_zero⟩
  · intro raw_data i
    have hz := scale_milli_zero
    rcases i with _ | _ | _ | _ | _ | _ | i <;>
      first
        | exact ⟨rfl, rfl⟩
        | exact ⟨by simp [decodeVoltages, rail_voltages, List.getD, hz],
            by simp [decodeCurrents, rail_currents, List.getD, hz]⟩
  · rw [scale_milli, show scale_num 0x2710 = 85899345920 from by decide]
    norm_num

/-- NVAPI success status (`NVAPI_OK`). -/
def NVAPI_OK : ℤ := 0

/-- Modelled from the spec: `NVAPI_MAX_PHYSICAL_GPUS`, the size of the
stack array passed to `NvAPI_EnumPhysicalGPUs`, comes from the external
`nvapi_sys` crate whose source is not part of this repository; the spec
fixes the enumeration cap at 32. -/
def NVAPI_MAX_PHYSICAL_GPUS : ℕ := 32

/-- IT8915 I2C device address (0x56). -/
def IT8915_I2C_ADDRESS : ℕ := 0x56

/-- Starting IT8915 register for power readings (0x80). -/
def IT8915_POWER_REG_START : ℕ := 0x80

/-- Size in bytes of one power telemetry frame. -/
def IT8915_POWER_DATA_SIZE : ℕ := 24

/-- Outcome of the `NvAPI_EnumPhysicalGPUs` driver call: the returned
status, the written GPU count, and the contents of the 32-entry handle
array after the call (handles are opaque, modelled as `ℕ`). -/
structure EnumResult where
  status : ℤ
  count : ℕ
  handles : List ℕ
deriving DecidableEq

/-- The monitor state: the Rust struct holds the enumerated handles in a
`Vec`; every method takes `&self`, so the list is immutable after
construction. -/
structure AstralPowerMonitor where
  gpu_handles : List ℕ
deriving DecidableEq

/-- `AstralPowerMonitor::new`: fails if enumeration returns a non-OK
status, fails if zero GPUs were counted, otherwise keeps the first
`gpu_count` entries of the handle array
(`gpu_handles[..gpu_count as usize].to_vec()`; `List.take` models that
slice for `gpu_count` within the array bound, the only case in which the
Rust slicing does not panic). -/
def AstralPowerMonitor.new (e : EnumResult) : Except String AstralPowerMonitor :=
  if e.status ≠ NVAPI_OK then
    Except.error ("Failed to enumerate GPUs: status " ++ toString e.status)
  else if e.count = 0 then
    Except.error "No NVIDIA GPUs found"
  else
    Except.ok ⟨e.handles.take e.count⟩

/-- `AstralPowerMonitor::gpu_count`. -/
def AstralPowerMonitor.gpu_count (m : AstralPowerMonitor) : ℕ :=
  m.gpu_handles.length

/-- The Rust cast `gpu_index as usize` of an `i32` value: two's
complement wrap into the unsigned 64-bit range. -/
def usizeOfI32 (i : ℤ) : ℕ := (i % 2 ^ 64).toNat

/-- The Rust cast `len as i32` of a `usize` value: wrap into the signed
32-bit range. -/
def i32OfUsize (n : ℕ) : ℤ :=
  if n % 2 ^ 32 < 2 ^ 31 then (n % 2 ^ 32 : ℕ) else (n % 2 ^ 32 : ℕ) - 2 ^ 32

/-- The release-mode Rust value of `len - 1` on `usize`: wrapping
subtraction (only reachable with `len = 0` on a monitor that `new` can
never produce). -/
def usizeSub1 (n : ℕ) : ℕ := (n + 2 ^ 64 - 1) % 2 ^ 64

/-- Driver oracle for one `NvAPI_I2CReadEx` call: given the GPU handle,
the register address and the requested byte count (the device address
0x56, bus speed and port id are fixed by the transaction descriptor),
returns the NVAPI status and the contents of the data buffer after the
call. -/
def I2COracle : Type := ℕ → ℕ → ℕ → ℤ × List ℕ

/-- `AstralPowerMonitor::read_i2c_data`: unchecked indexing
`self.gpu_handles[gpu_index as usize]` — a panic (index out of bounds)
is modelled as `none` — then one I2C transaction through the driver.
Returns the read result together with the list of handles on which a
hardware transaction was attempted. -/
def read_i2c_data (m : AstralPowerMonitor) (hw : I2COracle) (gpu_index : ℤ)
    (reg_addr : ℕ) (size : ℕ) : Option (Except String (List ℕ) × List ℕ) :=
  match m.gpu_handles[usizeOfI32 gpu_index]? with
  | none => none
  | some gpu_handle =>
      let t := hw gpu_handle reg_addr size
      if t.1 ≠ NVAPI_OK then
        some (Except.error ("I2C read failed: NVAPI status " ++ toString t.1), [gpu_handle])
      else
        some (Except.ok t.2, [gpu_handle])

/-- Result of one `get_power_status` call: the returned `Result`, the
caller-supplied voltage and current buffers after the call, and the
handles on which a hardware transaction was attempted. -/
structure PollResult where
  res : Except String Unit
  voltage_buffer : List ℚ
  current_buffer : List ℚ
  transactions : List ℕ

/-- `AstralPowerMonitor::get_power_status`: range-check the index, read
the 24-byte frame from register 0x80, decode it into the two buffers.
`none` models a Rust panic. -/
def get_power_status (m : AstralPowerMonitor) (hw : I2COracle) (gpu_index : ℤ)
    (voltage_buffer current_buffer : List ℚ) : Option PollResult :=
  if gpu_index < 0 ∨ i32OfUsize m.gpu_handles.length ≤ gpu_index then
    some ⟨Except.error ("Invalid GPU index " ++ toString gpu_index ++
            ". Valid range: 0-" ++ toString (usizeSub1 m.gpu_handles.length)),
          voltage_buffer, current_buffer, []⟩
  else
    match read_i2c_data m hw gpu_index IT8915_POWER_REG_START IT8915_POWER_DATA_SIZE with
    | none => none
    | some (Except.error e, t) =>
        some ⟨Except.error e, voltage_buffer, current_buffer, t⟩
    | some (Except.ok raw_data, t) =>
        some ⟨Except.ok (), decodeVoltages raw_data, decodeCurrents raw_data, t⟩

/-- Observable end state of the `main` process: exited with a given exit
code and whether a diagnostic was printed to standard error, still
running after the given number of loop iterations, or aborted by a
panic. -/
inductive MainOutcome where
  | exited (code : ℕ) (stderrDiag : Bool)
  | running
  | panicked
deriving DecidableEq

/-- The monitoring loop of `main`: polls GPU index 0 once per iteration,
reusing the two buffers across iterations; on `Err` it prints to stderr
and breaks, after which `main` returns normally, so the process exit
code is 0. The first argument is the iteration budget under which we
observe the (otherwise infinite) loop. -/
def runLoop (m : AstralPowerMonitor) (hw : ℕ → I2COracle) :
    ℕ → ℕ → List ℚ → List ℚ → MainOutcome
  | 0, _, _, _ => MainOutcome.running
  | fuel + 1, pollIdx, voltages, currents =>
      match get_power_status m (hw pollIdx) 0 voltages currents with
      | none => MainOutcome.panicked
      | some r =>
          match r.res with
          | Except.ok _ => runLoop m hw fuel (pollIdx + 1) r.voltage_buffer r.current_buffer
          | Except.error _ => MainOutcome.exited 0 true

/-- `main`: on initialization failure print the diagnostic and
`std::process::exit(1)`; otherwise enter the monitoring loop with both
buffers zero-initialized. -/
def runMain (e : EnumResult) (hw : ℕ → I2COracle) (fuel : ℕ) : MainOutcome :=
  match AstralPowerMonitor.new e with
  | Except.error _ => MainOutcome.exited 1 true
  | Except.ok m => runLoop m hw fuel 0 (List.replicate 6 0) (List.replicate 6 0)

lemma i32OfUsize_small (n : ℕ) (h : n ≤ NVAPI_MAX_PHYSICAL_GPUS) : i32OfUsize n = n := by
  have hm : n % 2 ^ 32 = n := Nat.mod_eq_of_lt (by
    have : NVAPI_MAX_PHYSICAL_GPUS = 32 := rfl
    omega)
  rw [i32OfUsize, hm, if_pos]
  have : NVAPI_MAX_PHYSICAL_GPUS = 32 := rfl
  omega

lemma usizeOfI32_nonneg (i : ℤ) (h0 : 0 ≤ i) (h : i < 2 ^ 64) :
    usizeOfI32 i = i.toNat := by
  rw [usizeOfI32, Int.emod_eq_of_lt h0 h]

/-- C5: initialization fails with the enumeration error when the driver
status is not OK, fails with the no-device error when the status is OK
but the count is zero, and for every count N with 1 ≤ N ≤ 32 succeeds
holding exactly N handles addressable at indices 0..N-1. -/
theorem c5_enumeration (e : EnumResult)
    (hlen : e.handles.length = NVAPI_MAX_PHYSICAL_GPUS) :
    (e.status ≠ NVAPI_OK →
      AstralPowerMonitor.new e =
        Except.error ("Failed to enumerate GPUs: status " ++ toString e.status)) ∧
    (e.status = NVAPI_OK → e.count = 0 →
      AstralPowerMonitor.new e = Except.error "No NVIDIA GPUs found") ∧
    (e.status = NVAPI_OK → 1 ≤ e.count → e.count ≤ NVAPI_MAX_PHYSICAL_GPUS →
      ∃ m, AstralPowerMonitor.new e = Except.ok m ∧
        m.gpu_handles.length = e.count ∧
        ∀ i, i < e.count → m.gpu_handles[i]? = e.handles[i]?) := by
  refine ⟨?_, ?_, ?_⟩
  · intro hs
    rw [AstralPowerMonitor.new, if_pos hs]
  · intro hs hc
    simp [AstralPowerMonitor.new, hs, hc]
  · intro hs h1 hcap
    refine ⟨⟨e.handles.take e.count⟩, ?_, ?_, ?_⟩
    · simp [AstralPowerMonitor.new, hs, show e.count ≠ 0 from by omega]
    · simp only [List.length_take, hlen]
      omega
    · intro i hi
      exact List.getElem?_take_of_lt hi

/-- C5 witness: a driver reporting one device out of the 32-slot array. -/
theorem c5_witness :
    (1 : ℕ) ≤ (EnumResult.mk 0 1 (List.replicate 32 5)).count ∧
    ∃ m, AstralPowerMonitor.new ⟨0, 1, List.replicate 32 5⟩ = Except.ok m ∧
      m.gpu_handles.length = (EnumResult.mk 0 1 (List.replicate 32 5)).count ∧
      ∀ i, i < (EnumResult.mk 0 1 (List.replicate 32 5)).count →
        m.gpu_handles[i]? = (EnumResult.mk 0 1 (List.replicate 32 5)).handles[i]? :=
  ⟨by norm_num,
   (c5_enumeration ⟨0, 1, List.replicate 32 5⟩ (by decide)).2.2 rfl (by norm_num) (by decide)⟩

/-- C9: every successfully constructed monitor holds between 1 and 32
handles (the handle list is owned by the struct and every method takes a
shared reference, so it is immutable for the value's lifetime), and
`gpu_count` returns exactly that count. -/
theorem c9_handle_count (e : EnumResult) (m : AstralPowerMonitor)
    (hlen : e.handles.length = NVAPI_MAX_PHYSICAL_GPUS)
    (hcap : e.count ≤ NVAPI_MAX_PHYSICAL_GPUS)
    (hok : AstralPowerMonitor.new e = Except.ok m) :
    1 ≤ m.gpu_count ∧ m.gpu_count ≤ NVAPI_MAX_PHYSICAL_GPUS ∧
    m.gpu_count = m.gpu_handles.length ∧ m.gpu_count = e.count := by
  rw [AstralPowerMonitor.new] at hok
  by_cases hs : e.status ≠ NVAPI_OK
  · rw [if_pos hs] at hok
    exact absurd hok (by simp)
  · rw [if_neg hs] at hok
    by_cases hc : e.count = 0
    · rw [if_pos hc] at hok
      exact absurd hok (by simp)
    · rw [if_neg hc] at hok
      injection hok with hm
      subst hm
      have hcount : (AstralPowerMonitor.mk (e.handles.take e.count)).gpu_count = e.count := by
        simp only [AstralPowerMonitor.gpu_count, List.length_take, hlen]
        omega
      refine ⟨by omega, by omega, rfl, hcount⟩

/-- C9 witness: the monitor built from a one-device enumeration. -/
theorem c9_witness :
    1 ≤ (AstralPowerMonitor.mk [5]).gpu_count ∧
    (AstralPowerMonitor.mk [5]).gpu_count ≤ NVAPI_MAX_PHYSICAL_GPUS ∧
    (AstralPowerMonitor.mk [5]).gpu_count = (AstralPowerMonitor.mk [5]).gpu_handles.length ∧
    (AstralPowerMonitor.mk [5]).gpu_count = (EnumResult.mk 0 1 (List.replicate 32 5)).count :=
  c9_handle_count ⟨0, 1, List.replicate 32 5⟩ ⟨[5]⟩ (by decide) (by decide) rfl

/-- C6: any device index outside [0, deviceCount) — in particular every
negative index — makes `get_power_status` fail with the invalid-index
error, with no hardware transaction attempted (empty transaction list). -/
theorem c6_invalid_index (m : AstralPowerMonitor) (hw : I2COracle)
    (gpu_index : ℤ) (v c : List ℚ)
    (h32 : m.gpu_handles.length ≤ NVAPI_MAX_PHYSICAL_GPUS)
    (hout : gpu_index < 0 ∨ (m.gpu_handles.length : ℤ) ≤ gpu_index) :
    get_power_status m hw gpu_index v c =
      some ⟨Except.error ("Invalid GPU index " ++ toString gpu_index ++
              ". Valid range: 0-" ++ toString (usizeSub1 m.gpu_handles.length)),
            v, c, []⟩ := by
  have hg : gpu_index < 0 ∨ i32OfUsize m.gpu_handles.length ≤ gpu_index := by
    rwa [i32OfUsize_small _ h32]
  rw [get_power_status, if_pos hg]

/-- C6 witness: index -1 on a one-device monitor. -/
theorem c6_witness :
    ((-1 : ℤ) < 0 ∨ ((AstralPowerMonitor.mk [5]).gpu_handles.length : ℤ) ≤ -1) ∧
    get_power_status ⟨[5]⟩ (fun _ _ _ => (-1, List.replicate 24 0)) (-1) [] [] =
      some ⟨Except.error ("Invalid GPU index " ++ toString (-1 : ℤ) ++
              ". Valid range: 0-" ++
              toString (usizeSub1 (AstralPowerMonitor.mk [5]).gpu_handles.length)),
            [], [], []⟩ :=
  ⟨Or.inl (by norm_num),
   c6_invalid_index ⟨[5]⟩ (fun _ _ _ => (-1, List.replicate 24 0)) (-1) [] []
     (by norm_num [NVAPI_MAX_PHYSICAL_GPUS]) (Or.inl (by norm_num))⟩

/-- C7: whenever `get_power_status` returns an error, the caller's
voltage and current buffers are returned unchanged. -/
theorem c7_buffers_unchanged (m : AstralPowerMonitor) (hw : I2COracle)
    (gpu_index : ℤ) (v c : List ℚ) (r : PollResult) (msg : String)
    (hsome : get_power_status m hw gpu_index v c = some r)
    (herr : r.res = Except.error msg) :
    r.voltage_buffer = v ∧ r.current_buffer = c := by
  rw [get_power_status] at hsome
  split_ifs at hsome with hg
  · simp only [Option.some.injEq] at hsome
    subst hsome
    exact ⟨rfl, rfl⟩
  · rcases h2 : read_i2c_data m hw gpu_index IT8915_POWER_REG_START IT8915_POWER_DATA_SIZE with
      _ | ⟨e2 | raw, t⟩ <;> rw [h2] at hsome
    · simp at hsome
    · simp only [Option.some.injEq] at hsome
      subst hsome
      exact ⟨rfl, rfl⟩
    · simp only [Option.some.injEq] at hsome
      subst hsome
      simp at herr

/-- C7 witness: a failed transaction on a one-device monitor leaves the
buffers [1] and [2] unchanged. -/
theorem c7_witness :
    (⟨Except.error ("I2C read failed: NVAPI status " ++ toString (-1 : ℤ)),
        [(1 : ℚ)], [(2 : ℚ)], [5]⟩ : PollResult).voltage_buffer = [(1 : ℚ)] ∧
    (⟨Except.error ("I2C read failed: NVAPI status " ++ toString (-1 : ℤ)),
        [(1 : ℚ)], [(2 : ℚ)], [5]⟩ : PollResult).current_buffer = [(2 : ℚ)] :=
  c7_buffers_unchanged ⟨[5]⟩ (fun _ _ _ => (-1, List.replicate 24 0)) 0 [1] [2]
    ⟨Except.error ("I2C read failed: NVAPI status " ++ toString (-1 : ℤ)),
        [(1 : ℚ)], [(2 : ℚ)], [5]⟩
    ("I2C read failed: NVAPI status " ++ toString (-1 : ℤ)) rfl rfl

lemma read_i2c_data_some (m : AstralPowerMonitor) (hw : I2COracle) (gpu_index : ℤ)
    (reg_addr size : ℕ) (hlt : usizeOfI32 gpu_index < m.gpu_handles.length) :
    ∃ p, read_i2c_data m hw gpu_index reg_addr size = some p := by
  rw [read_i2c_data, List.getElem?_eq_getElem hlt]
  dsimp only
  split_ifs <;> exact ⟨_, rfl⟩

/-- C10: for every i32 device index, the explicit range check runs
before the unchecked indexing in `read_i2c_data`, so whenever the check
passes the cast index is within the handle-list bounds, and
`get_power_status` never panics (never returns `none`). -/
theorem c10_index_safety (m : AstralPowerMonitor) (hw : I2COracle)
    (gpu_index : ℤ) (v c : List ℚ)
    (h32 : m.gpu_handles.length ≤ NVAPI_MAX_PHYSICAL_GPUS) :
    (¬(gpu_index < 0 ∨ (m.gpu_handles.length : ℤ) ≤ gpu_index) →
      usizeOfI32 gpu_index < m.gpu_handles.length) ∧
    get_power_status m hw gpu_index v c ≠ none := by
  have hb : ¬(gpu_index < 0 ∨ (m.gpu_handles.length : ℤ) ≤ gpu_index) →
      usizeOfI32 gpu_index < m.gpu_handles.length := by
    intro h
    push_neg at h
    obtain ⟨h0, hlt⟩ := h
    have h64 : gpu_index < 2 ^ 64 := by
      have : NVAPI_MAX_PHYSICAL_GPUS = 32 := rfl
      omega
    rw [usizeOfI32_nonneg gpu_index h0 h64]
    omega
  refine ⟨hb, ?_⟩
  rw [get_power_status]
  split_ifs with hg
  · simp
  · have hg2 : ¬(gpu_index < 0 ∨ (m.gpu_handles.length : ℤ) ≤ gpu_index) := by
      rwa [i32OfUsize_small _ h32] at hg
    obtain ⟨p, hp⟩ := read_i2c_data_some m hw gpu_index
      IT8915_POWER_REG_START IT8915_POWER_DATA_SIZE (hb hg2)
    rw [hp]
    rcases p with ⟨er | raw, t⟩ <;> simp

/-- C10 witness: index 0 on a one-device monitor. -/
theorem c10_witness :
    (¬((0 : ℤ) < 0 ∨ ((AstralPowerMonitor.mk [5]).gpu_handles.length : ℤ) ≤ 0) →
      usizeOfI32 0 < (AstralPowerMonitor.mk [5]).gpu_handles.length) ∧
    get_power_status ⟨[5]⟩ (fun _ _ _ => (-1, List.replicate 24 0)) 0 [] [] ≠ none :=
  c10_index_safety ⟨[5]⟩ (fun _ _ _ => (-1, List.replicate 24 0)) 0 [] [] (by decide)

/-- C8: polling is deterministic and stateless: two calls with the same
monitor, driver behavior and index return the same result and attempt
the same transactions regardless of the prior contents of the caller's
buffers, and on success the full results (including both decoded
buffers) coincide. -/
theorem c8_deterministic (m : AstralPowerMonitor) (hw : I2COracle) (gpu_index : ℤ)
    (v1 c1 v2 c2 : List ℚ) (r1 r2 : PollResult)
    (h1 : get_power_status m hw gpu_index v1 c1 = some r1)
    (h2 : get_power_status m hw gpu_index v2 c2 = some r2) :
    r1.res = r2.res ∧ r1.transactions = r2.transactions ∧
    (r1.res = Except.ok () → r1 = r2) := by
  rw [get_power_status] at h1 h2
  split_ifs at h1 h2 with hg
  · simp only [Option.some.injEq] at h1 h2
    subst h1
    subst h2
    exact ⟨rfl, rfl, by intro h; simp at h⟩
  · rcases hr : read_i2c_data m hw gpu_index IT8915_POWER_REG_START IT8915_POWER_DATA_SIZE with
      _ | ⟨er | raw, t⟩ <;> rw [hr] at h1 h2
    · simp at h1
    · simp only [Option.some.injEq] at h1 h2
      subst h1
      subst h2
      exact ⟨rfl, rfl, by intro h; simp at h⟩
    · simp only [Option.some.injEq] at h1 h2
      subst h1
      subst h2
      exact ⟨rfl, rfl, fun _ => rfl⟩

/-- C8 witness: the same successful poll from two different prior buffer
states yields the identical result. -/
theorem c8_witness :
    get_power_status ⟨[5]⟩ (fun _ _ _ => (0, List.replicate 24 0)) 0
        (List.replicate 6 1) (List.replicate 6 1) =
      some ⟨Except.ok (), decodeVoltages (List.replicate 24 0),
            decodeCurrents (List.replicate 24 0), [5]⟩ ∧
    get_power_status ⟨[5]⟩ (fun _ _ _ => (0, List.replicate 24 0)) 0
        (List.replicate 6 2) (List.replicate 6 2) =
      some ⟨Except.ok (), decodeVoltages (List.replicate 24 0),
            decodeCurrents (List.replicate 24 0), [5]⟩ ∧
    ((⟨Except.ok (), decodeVoltages (List.replicate 24 0),
        decodeCurrents (List.replicate 24 0), [5]⟩ : PollResult).res =
      (⟨Except.ok (), decodeVoltages (List.replicate 24 0),
        decodeCurrents (List.replicate 24 0), [5]⟩ : PollResult).res) :=
  ⟨rfl, rfl,
   (c8_deterministic ⟨[5]⟩ (fun _ _ _ => (0, List.replicate 24 0)) 0
      (List.replicate 6 1) (List.replicate 6 1) (List.replicate 6 2) (List.replicate 6 2)
      _ _ rfl rfl).1⟩

lemma gps_poll_zero (m : AstralPowerMonitor) (hw : I2COracle) (v c : List ℚ)
    (h1 : 1 ≤ m.gpu_handles.length) (h32 : m.gpu_handles.length ≤ NVAPI_MAX_PHYSICAL_GPUS) :
    get_power_status m hw 0 v c =
      if (hw (m.gpu_handles.getD 0 0) IT8915_POWER_REG_START IT8915_POWER_DATA_SIZE).1 ≠ NVAPI_OK
      then
        some ⟨Except.error ("I2C read failed: NVAPI status " ++
                toString (hw (m.gpu_handles.getD 0 0) IT8915_POWER_REG_START
                  IT8915_POWER_DATA_SIZE).1),
              v, c, [m.gpu_handles.getD 0 0]⟩
      else
        some ⟨Except.ok (),
              decodeVoltages (hw (m.gpu_handles.getD 0 0) IT8915_POWER_REG_START
                IT8915_POWER_DATA_SIZE).2,
              decodeCurrents (hw (m.gpu_handles.getD 0 0) IT8915_POWER_REG_START
                IT8915_POWER_DATA_SIZE).2,
              [m.gpu_handles.getD 0 0]⟩ := by
  have hg : ¬((0 : ℤ) < 0 ∨ i32OfUsize m.gpu_handles.length ≤ 0) := by
    rw [i32OfUsize_small _ h32]
    push_neg
    constructor
    · norm_num
    · exact_mod_cast by omega
  rw [get_power_status, if_neg hg]
  obtain ⟨a, l, hm⟩ : ∃ a l, m.gpu_handles = a :: l := by
    rcases hml : m.gpu_handles with _ | ⟨a, l⟩
    · rw [hml] at h1
      simp at h1
    · exact ⟨a, l, rfl⟩
  rw [read_i2c_data, show usizeOfI32 0 = 0 from rfl, hm]
  simp only [List.getElem?_cons_zero, List.getD_cons_zero]
  split_ifs with ht <;> rfl

lemma runLoop_exits_zero (m : AstralPowerMonitor) (hw : ℕ → I2COracle)
    (h1 : 1 ≤ m.gpu_handles.length) (h32 : m.gpu_handles.length ≤ NVAPI_MAX_PHYSICAL_GPUS) :
    ∀ (n start fuel : ℕ) (v c : List ℚ),
      (∀ k, k < n → (hw (start + k) (m.gpu_handles.getD 0 0) IT8915_POWER_REG_START
        IT8915_POWER_DATA_SIZE).1 = NVAPI_OK) →
      (hw (start + n) (m.gpu_handles.getD 0 0) IT8915_POWER_REG_START
        IT8915_POWER_DATA_SIZE).1 ≠ NVAPI_OK →
      n < fuel →
      runLoop m hw fuel start v c = MainOutcome.exited 0 true := by
  intro n
  induction n with
  | zero =>
    intro start fuel v c hok hfail hlt
    obtain ⟨f, rfl⟩ : ∃ f, fuel = f + 1 := ⟨fuel - 1, by omega⟩
    rw [Nat.add_zero] at hfail
    rw [runLoop, gps_poll_zero m (hw start) v c h1 h32, if_pos hfail]
  | succ n ih =>
    intro start fuel v c hok hfail hlt
    obtain ⟨f, rfl⟩ : ∃ f, fuel = f + 1 := ⟨fuel - 1, by omega⟩
    have hk0 := hok 0 (by omega)
    rw [Nat.add_zero] at hk0
    rw [runLoop, gps_poll_zero m (hw start) v c h1 h32, if_neg (not_not_intro hk0)]
    apply ih (start + 1) f
    · intro k hkn
      have hsh := hok (k + 1) (by omega)
      rwa [show start + (k + 1) = start + 1 + k from by omega] at hsh
    · rwa [show start + 1 + n = start + (n + 1) from by omega]
    · omega

/-- C2 counterexample input: one device, and the very first poll's I2C
transaction fails; the loop prints the diagnostic and breaks, after
which `main` returns normally, so the process exits with status 0 — not
with a non-zero status as claimed. -/
theorem c2_counterexample :
    runMain ⟨0, 1, List.replicate 32 5⟩ (fun _ _ _ _ => (-1, List.replicate 24 0)) 3 =
      MainOutcome.exited 0 true ∧
    ¬ ∃ (code : ℕ) (diag : Bool), code ≠ 0 ∧
      runMain ⟨0, 1, List.replicate 32 5⟩ (fun _ _ _ _ => (-1, List.replicate 24 0)) 3 =
        MainOutcome.exited code diag := by
  constructor
  · rfl
  · rintro ⟨code, diag, hc, h⟩
    rw [show runMain ⟨0, 1, List.replicate 32 5⟩ (fun _ _ _ _ => (-1, List.replicate 24 0)) 3 =
          MainOutcome.exited 0 true from rfl] at h
    injection h with ha hb
    exact hc ha.symm

/-- C2 (amended): an initialization failure exits with status 1 and a
stderr diagnostic; when poll n is the first whose I2C transaction fails,
the loop stops polling and the process terminates with a stderr
diagnostic and exit status 0 (the `Err` arm breaks out of the loop and
`main` returns normally). -/
theorem c2_amended :
    (∀ (e : EnumResult) (hw : ℕ → I2COracle) (fuel : ℕ) (msg : String),
      AstralPowerMonitor.new e = Except.error msg →
      runMain e hw fuel = MainOutcome.exited 1 true) ∧
    (∀ (e : EnumResult) (m : AstralPowerMonitor) (hw : ℕ → I2COracle) (n fuel : ℕ),
      AstralPowerMonitor.new e = Except.ok m →
      1 ≤ m.gpu_handles.length → m.gpu_handles.length ≤ NVAPI_MAX_PHYSICAL_GPUS →
      (∀ k, k < n → (hw k (m.gpu_handles.getD 0 0) IT8915_POWER_REG_START
        IT8915_POWER_DATA_SIZE).1 = NVAPI_OK) →
      (hw n (m.gpu_handles.getD 0 0) IT8915_POWER_REG_START
        IT8915_POWER_DATA_SIZE).1 ≠ NVAPI_OK →
      n < fuel →
      runMain e hw fuel = MainOutcome.exited 0 true) := by
  constructor
  · intro e hw fuel msg hmsg
    rw [runMain, hmsg]
  · intro e m hw n fuel hok h1 h32 hpolls hfail hlt
    rw [runMain, hok]
    apply runLoop_exits_zero m hw h1 h32 n 0 fuel _ _ _ _ hlt
    · intro k hk
      rw [Nat.zero_add]
      exact hpolls k hk
    · rwa [Nat.zero_add]

/-- C2 witness: one device, the first poll succeeds and the second
fails; after at most 3 iterations the process has exited with status 0
and a stderr diagnostic. -/
theorem c2_witness :
    AstralPowerMonitor.new ⟨0, 1, List.replicate 32 5⟩ = Except.ok ⟨[5]⟩ ∧
    ((fun k _ _ _ => if k = 0 then ((0 : ℤ), List.replicate 24 0)
        else (-1, List.replicate 24 0)) 1 5 IT8915_POWER_REG_START
      IT8915_POWER_DATA_SIZE).1 ≠ NVAPI_OK ∧
    runMain ⟨0, 1, List.replicate 32 5⟩
      (fun k _ _ _ => if k = 0 then ((0 : ℤ), List.replicate 24 0)
        else (-1, List.replicate 24 0)) 3 = MainOutcome.exited 0 true :=
  ⟨rfl, by decide,
   c2_amended.2 ⟨0, 1, List.replicate 32 5⟩ ⟨[5]⟩
     (fun k _ _ _ => if k = 0 then ((0 : ℤ), List.replicate 24 0)
       else (-1, List.replicate 24 0)) 1 3 rfl (by decide) (by decide)
     (fun k hk => by interval_cases k; rfl) (by decide) (by omega)⟩
